import Mathlib

/-!
Verification of the OPTIC-SHIELD telemetry ingestion core.

This file shallowly embeds the server-side ingestion and query logic of the
dashboard (the Next.js route handlers for single-detection POST, batch POST,
detection GET, audit-log GET, and the stats GET) and proves the specified
properties about it.

Conventions of the embedding:
* All timestamps are integers in milliseconds since the epoch (the code stores
  ISO strings produced from such values; parsing/printing is a bijection we
  elide).  Payload timestamps are epoch seconds, multiplied by 1000 on ingest
  exactly as in the source.
* Confidence values and coordinates are rationals (they are only passed
  through, never computed with).
* JavaScript truthiness of strings (empty string is falsy) and of numbers
  (0 is falsy) is modelled explicitly where the source relies on `||` or `!!`.
* `Array.prototype.slice(0, limit)` with a possibly negative `limit` is
  modelled by `jsSliceTo`, and `Array.prototype.sort` with comparator
  `(b - a)` on counts — a stable sort per the ECMAScript spec — by the stable
  insertion sort `sortCountDesc`.
* Wall-clock reads (`Date.now()`, `new Date()`) are passed in as a `now`
  parameter; the timezone used by `Date.prototype.getHours` is passed as a
  millisecond offset `tzOffset`.
-/

namespace OpticShield

/-- Per-device statistics record (`device.stats` in the source). -/
structure DeviceStats where
  detectionCount : Nat
deriving DecidableEq, Repr

/-- Modelled from the spec: a device record held by the device registry
(`getDeviceStore()` lives in `lib/auth`, which is outside the provided
sources); fields are the ones the ingestion handlers read and write:
display name, derived status, last-seen time, cumulative stats. -/
structure Device where
  name : String
  status : String
  lastSeen : Int
  stats : DeviceStats
deriving DecidableEq, Repr

/-- Optional location attached to a detection (`{name, latitude, longitude}`). -/
structure GeoLocation where
  name : Option String
  latitude : Option ℚ
  longitude : Option ℚ
deriving DecidableEq, Repr

/-- Detection metadata after field renaming on ingest. -/
structure DetectionMetadata where
  processingTimeMs : Option ℚ
  priority : Option String
  frameTimestamp : Option ℚ
  deviceInfo : Option String
  uploadTimestamp : Option ℚ
deriving DecidableEq, Repr

/-- A stored detection record (the `Detection` type of the dashboard). -/
structure Detection where
  id : Int
  eventId : Option String
  deviceId : String
  deviceName : String
  cameraId : Option String
  timestamp : Int
  className : String
  confidence : ℚ
  bbox : List ℚ
  imageUrl : Option String
  location : Option GeoLocation
  metadata : Option DetectionMetadata
deriving DecidableEq, Repr

/-- Raw metadata in a single-detection payload (snake_case wire names). -/
structure MetadataPayload where
  processing_time_ms : Option ℚ
  priority : Option String
  frame_timestamp : Option ℚ
  device_info : Option String
  upload_timestamp : Option ℚ
deriving DecidableEq, Repr

/-- Wire payload of `POST /api/devices/detections`.  A missing string field is
modelled as the empty string, which is exactly what the handler's JavaScript
truthiness test `!device_id || !class_name` treats as missing. -/
structure DetectionPayload where
  event_id : Option String
  detection_id : Option Int
  device_id : String
  camera_id : Option String
  timestamp : Int
  class_name : String
  class_id : Option Int
  confidence : ℚ
  bbox : Option (List ℚ)
  image_base64 : Option String
  location : Option GeoLocation
  metadata : Option MetadataPayload
deriving DecidableEq, Repr

/-- One item of the batch payload (`POST /api/devices/detections/batch`). -/
structure BatchItem where
  detection_id : Option Int
  timestamp : Int
  class_name : String
  confidence : ℚ
  bbox : Option (List ℚ)
  image_base64 : Option String
deriving DecidableEq, Repr

/-- The details map written by `logDetectionEvent` on the success path. -/
structure AuditDetails where
  className : String
  confidence : ℚ
  hasImage : Bool
  cameraId : Option String
  location : Option String
  priority : Option String
deriving DecidableEq, Repr

/-- One entry of the module-level `detectionEventLog`. -/
structure AuditEntry where
  eventId : String
  deviceId : String
  timestamp : Int
  action : String
  details : AuditDetails
deriving DecidableEq, Repr

/-- Modelled from the spec: the process-wide mutable state the handlers in the
provided sources read and write — the device registry map, the detection
store (`detectionStore.get('all')`), the audit log and, as an observation
trace, the sequence of `broadcastDeviceUpdate` calls (the broadcast hub
itself lives in `lib/auth`, outside the provided sources; the ingestion
handlers only ever hand it a device record, most recent first here). -/
structure ServerState where
  devices : List (String × Device)
  detections : List Detection
  auditLog : List AuditEntry
  broadcasts : List Device
deriving DecidableEq, Repr

/-- Modelled from the spec: `Map.prototype.get` on the device registry. -/
def mapGet (m : List (String × Device)) (k : String) : Option Device :=
  (m.find? (fun p => p.1 == k)).map (fun p => p.2)

/-- Modelled from the spec: `Map.prototype.set` on the device registry —
updates an existing key in place (preserving insertion order) or appends. -/
def mapSet (m : List (String × Device)) (k : String) (v : Device) :
    List (String × Device) :=
  match m with
  | [] => [(k, v)]
  | (k0, v0) :: rest =>
    if k0 == k then (k0, v) :: rest else (k0, v0) :: mapSet rest k v

/-- The fixed wild-cat allow-list, shared verbatim by all three route files. -/
def WILD_CAT_SPECIES : List String :=
  ["tiger", "leopard", "jaguar", "lion", "cheetah", "snow leopard",
   "clouded leopard", "puma", "lynx"]

/-- ASCII lowercasing of one character — `String.prototype.toLowerCase`
restricted to ASCII, which is all that can matter against the all-ASCII
allow-list. -/
def lowerChar (c : Char) : Char :=
  if 65 ≤ c.toNat ∧ c.toNat ≤ 90 then Char.ofNat (c.toNat + 32) else c

/-- `className.toLowerCase()` (ASCII). -/
def lowerStr (s : String) : String :=
  String.mk (s.data.map lowerChar)

/-- `isWildCat`: case-insensitive membership in the allow-list. -/
def isWildCat (className : String) : Bool :=
  WILD_CAT_SPECIES.contains (lowerStr className)

/-- JavaScript `a || b` for an optional string (empty string is falsy). -/
def jsOrElse (o : Option String) (dflt : String) : String :=
  match o with
  | some s => if s == "" then dflt else s
  | none => dflt

/-- JavaScript `a || b` for an optional number (0 is falsy). -/
def jsOrElseInt (o : Option Int) (dflt : Int) : Int :=
  match o with
  | some i => if i == 0 then dflt else i
  | none => dflt

/-- JavaScript truthiness of an optional string (`!!s`). -/
def jsTruthyStr (o : Option String) : Bool :=
  match o with
  | some s => s != ""
  | none => false

/-- `if (l.length > 1000) l.splice(1000)`: keep only the first 1000 items. -/
def capTruncate (l : List α) : List α :=
  if l.length > 1000 then l.take 1000 else l

/-- `logDetectionEvent`: unshift an audit entry, then cap the log at 1000. -/
def logDetectionEvent (now : Int) (eventId deviceId action : String)
    (details : AuditDetails) (log : List AuditEntry) : List AuditEntry :=
  capTruncate
    ({ eventId := eventId, deviceId := deviceId, timestamp := now,
       action := action, details := details } :: log)

/-- The detection record built by the single-detection POST handler. -/
def buildSingleDetection (now : Int) (deviceName eventId : String)
    (b : DetectionPayload) : Detection :=
  { id := jsOrElseInt b.detection_id now
    eventId := some eventId
    deviceId := b.device_id
    deviceName := deviceName
    cameraId := b.camera_id
    timestamp := b.timestamp * 1000
    className := b.class_name
    confidence := b.confidence
    bbox := b.bbox.getD []
    imageUrl :=
      if jsTruthyStr b.image_base64 then
        some ("data:image/jpeg;base64," ++ b.image_base64.getD "")
      else none
    location := b.location
    metadata := b.metadata.map (fun m =>
      { processingTimeMs := m.processing_time_ms
        priority := m.priority
        frameTimestamp := m.frame_timestamp
        deviceInfo := m.device_info
        uploadTimestamp := m.upload_timestamp }) }

/-- `device?.name || device_id`: the display name both POST handlers denormalize
into each stored detection — the registered device's name, or the raw id when
the device is unregistered (or its name is the empty string). -/
def deviceDisplayName (s : ServerState) (device_id : String) : String :=
  match mapGet s.devices device_id with
  | some d => if d.name == "" then device_id else d.name
  | none => device_id

/-- `event_id || det_<device_id>_<Date.now()>`: the event id of a single
detection POST. -/
def singleEventId (now : Int) (b : DetectionPayload) : String :=
  jsOrElse b.event_id ("det_" ++ b.device_id ++ "_" ++ toString now)

/-- Response shape of the single-detection POST (HTTP status plus body). -/
structure SingleResponse where
  status : Nat
  success : Bool
  error : Option String
  message : Option String
  event_id : Option String
  detection_id : Option Int
deriving DecidableEq, Repr

/-- `POST /api/devices/detections`: verify credential, require `device_id` and
`class_name`, run the wild-cat filter, then build and store the detection,
update the device record if registered (broadcasting the update), and append
a success audit entry. -/
def singlePOST (now : Int) (authValid : Bool) (b : DetectionPayload)
    (s : ServerState) : SingleResponse × ServerState :=
  if !authValid then
    ({ status := 401, success := false, error := some "Unauthorized",
       message := none, event_id := none, detection_id := none }, s)
  else if b.device_id == "" || b.class_name == "" then
    ({ status := 400, success := false, error := some "Missing required fields",
       message := none, event_id := none, detection_id := none }, s)
  else if !isWildCat b.class_name then
    ({ status := 400, success := false,
       error := some "Only wild cat species are allowed",
       message := none, event_id := none, detection_id := none }, s)
  else
    let device := mapGet s.devices b.device_id
    let deviceName := deviceDisplayName s b.device_id
    let eventId := singleEventId now b
    let det := buildSingleDetection now deviceName eventId b
    let detections1 := capTruncate (det :: s.detections)
    let devicesAndBroadcasts :=
      match device with
      | some d =>
        let d1 : Device :=
          { d with stats := { detectionCount := d.stats.detectionCount + 1 },
                   lastSeen := now, status := "online" }
        (mapSet s.devices b.device_id d1, d1 :: s.broadcasts)
      | none => (s.devices, s.broadcasts)
    let audit1 :=
      logDetectionEvent now eventId b.device_id "detection_received"
        { className := b.class_name, confidence := b.confidence,
          hasImage := jsTruthyStr b.image_base64, cameraId := b.camera_id,
          location := b.location.bind (fun loc => loc.name),
          priority := b.metadata.bind (fun m => m.priority) }
        s.auditLog
    ({ status := 200, success := true, error := none,
       message := some "Detection recorded", event_id := some eventId,
       detection_id := some det.id },
     { devices := devicesAndBroadcasts.1, detections := detections1,
       auditLog := audit1, broadcasts := devicesAndBroadcasts.2 })

/-- The detection record built for one accepted batch item; `addedCount` is
the number of previously accepted items of the same request (used in the
`Date.now() + addedCount` id fallback). -/
def buildBatchDetection (now : Int) (deviceId deviceName : String)
    (addedCount : Nat) (det : BatchItem) : Detection :=
  { id := jsOrElseInt det.detection_id (now + addedCount)
    eventId := none
    deviceId := deviceId
    deviceName := deviceName
    cameraId := none
    timestamp := det.timestamp * 1000
    className := det.class_name
    confidence := det.confidence
    bbox := det.bbox.getD []
    imageUrl :=
      if jsTruthyStr det.image_base64 then
        some ("data:image/jpeg;base64," ++ det.image_base64.getD "")
      else none
    location := none
    metadata := none }

/-- One iteration of the batch loop: accept (unshift onto the store and count)
or reject (count only) a single item.  The accumulator is
(stored list, addedCount, rejectedCount). -/
def batchStep (now : Int) (deviceId deviceName : String)
    (acc : List Detection × Nat × Nat) (det : BatchItem) :
    List Detection × Nat × Nat :=
  if isWildCat det.class_name then
    (buildBatchDetection now deviceId deviceName acc.2.1 det :: acc.1,
     acc.2.1 + 1, acc.2.2)
  else
    (acc.1, acc.2.1, acc.2.2 + 1)

/-- Response shape of the batch POST. -/
structure BatchResponse where
  status : Nat
  success : Bool
  error : Option String
  message : Option String
  count : Option Nat
deriving DecidableEq, Repr

/-- `POST /api/devices/detections/batch`: verify credential, require
`device_id` and an array body, then run the per-item loop, cap the store at
1000, and bump the registered device's counter and `lastSeen` (its status is
left untouched on this path, and nothing is broadcast). -/
def batchPOST (now : Int) (authValid : Bool) (device_id : String)
    (items : Option (List BatchItem)) (s : ServerState) :
    BatchResponse × ServerState :=
  if !authValid then
    ({ status := 401, success := false, error := some "Unauthorized",
       message := none, count := none }, s)
  else
    match items with
    | none =>
      ({ status := 400, success := false,
         error := some "Missing required fields", message := none,
         count := none }, s)
    | some incoming =>
      if device_id == "" then
        ({ status := 400, success := false,
           error := some "Missing required fields", message := none,
           count := none }, s)
      else
        let device := mapGet s.devices device_id
        let deviceName := deviceDisplayName s device_id
        let folded :=
          incoming.foldl (batchStep now device_id deviceName)
            (s.detections, 0, 0)
        let detections1 := capTruncate folded.1
        let devices1 :=
          match device with
          | some d =>
            mapSet s.devices device_id
              { d with
                stats :=
                  { detectionCount := d.stats.detectionCount + folded.2.1 },
                lastSeen := now }
          | none => s.devices
        ({ status := 200, success := true, error := none,
           message := some (toString folded.2.1 ++ " detections recorded"),
           count := some folded.2.1 },
         { s with devices := devices1, detections := detections1 })

/-- `Array.prototype.slice(0, e)`: a nonnegative end index keeps the first
`min e length` items; a negative end index keeps the first `length - |e|`
items (clamped at zero). -/
def jsSliceTo (l : List α) (e : Int) : List α :=
  if e < 0 then l.take (l.length - (-e).toNat) else l.take e.toNat

/-- The detections matching a `GET /api/detections` query before slicing:
species-filtered, then filtered by device id when one is given (a JS-truthy
one — the empty string disables the filter like an absent parameter). -/
def matchingDetections (s : ServerState) (deviceId : Option String) :
    List Detection :=
  let ds := s.detections.filter (fun d => isWildCat d.className)
  match deviceId with
  | some i => if i == "" then ds else ds.filter (fun d => d.deviceId == i)
  | none => ds

/-- `GET /api/detections`: species-filter the store, optionally filter by
device id, slice to `limit`, and report the sliced length as `count`. -/
def detectionsGET (limit : Int) (deviceId : Option String) (s : ServerState) :
    List Detection × Nat :=
  let out := jsSliceTo (matchingDetections s deviceId) limit
  (out, out.length)

/-- The audit-log entries matching a `GET /api/devices/detections` query
before slicing. -/
def auditMatching (s : ServerState) (deviceId : Option String) :
    List AuditEntry :=
  match deviceId with
  | some i =>
    if i == "" then s.auditLog
    else s.auditLog.filter (fun e => e.deviceId == i)
  | none => s.auditLog

/-- `GET /api/devices/detections`: optionally filter the audit log by device
id, slice to `limit`, but report the pre-slice length as `count`. -/
def auditGET (deviceId : Option String) (limit : Int) (s : ServerState) :
    List AuditEntry × Nat :=
  (jsSliceTo (auditMatching s deviceId) limit, (auditMatching s deviceId).length)

/-- `Date.prototype.getHours` at epoch-millisecond `t` in a timezone that is
`tzOffset` milliseconds ahead of UTC: the local clock hour in `[0, 24)`. -/
def getHours (tzOffset t : Int) : Int :=
  ((t + tzOffset).fdiv 3600000) % 24

/-- One bucket of the hourly histogram, as pushed by the stats loop at loop
index `i = 23 - j` (so `j = 0` is the oldest bucket): the label is the local
clock hour at the bucket's end boundary and the count is taken over the whole
list `dets` handed in. -/
def hourBucket (dets : List Detection) (now tzOffset : Int) (j : Nat) :
    String × Nat :=
  let i : Int := 23 - (j : Int)
  let hourStart := now - (i + 1) * 3600000
  let hourEnd := now - i * 3600000
  (toString (getHours tzOffset hourEnd) ++ ":00",
   (dets.filter (fun d =>
      decide (hourStart ≤ d.timestamp) && decide (d.timestamp < hourEnd))).length)

/-- `classDistribution[key] = (classDistribution[key] || 0) + 1` on a plain
object whose (non-index) keys stay in first-insertion order: bump an existing
key in place or append a fresh one with count 1. -/
def bump (key : String) (l : List (String × Nat)) : List (String × Nat) :=
  match l with
  | [] => [(key, 1)]
  | (k, n) :: rest =>
    if k == key then (k, n + 1) :: rest else (k, n) :: bump key rest

/-- The frequency object built by the stats loop: class names in
first-encounter order, each with its occurrence count. -/
def countClasses (dets : List Detection) : List (String × Nat) :=
  dets.foldl (fun acc d => bump d.className acc) []

/-- Insert an entry into a count-descending list, in front of the first entry
whose count is not larger — the insertion step of a stable descending sort. -/
def insertCountDesc (p : String × Nat) (l : List (String × Nat)) :
    List (String × Nat) :=
  match l with
  | [] => [p]
  | q :: qs => if q.2 ≤ p.2 then p :: q :: qs else q :: insertCountDesc p qs

/-- `Object.entries(m).sort((a, b) => b - a)` — ECMAScript `sort` is stable,
so this is the stable sort by descending count, here as insertion sort. -/
def sortCountDesc (l : List (String × Nat)) : List (String × Nat) :=
  l.foldr insertCountDesc []

/-- The response body of `GET /api/stats`. -/
structure DashboardStats where
  totalDevices : Nat
  onlineDevices : Nat
  totalDetections24h : Nat
  totalDetectionsWeek : Nat
  classDistribution : List (String × Nat)
  hourlyDetections : List (String × Nat)
deriving DecidableEq, Repr

/-- `GET /api/stats`: species-filter the store once, then derive the online
count, the 24h/7d windows, the sorted class distribution over the 24h window,
and the 24-bucket hourly histogram over the species-filtered (but not
window-restricted) detection list. -/
def statsGET (now tzOffset : Int) (s : ServerState) : DashboardStats :=
  let devices := s.devices.map (fun p => p.2)
  let dets := s.detections.filter (fun d => isWildCat d.className)
  let oneDayAgo := now - 86400000
  let oneWeekAgo := now - 604800000
  let detections24h := dets.filter (fun d => decide (oneDayAgo < d.timestamp))
  let detectionsWeek := dets.filter (fun d => decide (oneWeekAgo < d.timestamp))
  { totalDevices := devices.length
    onlineDevices :=
      (devices.filter (fun d => decide (now - d.lastSeen < 120000))).length
    totalDetections24h := detections24h.length
    totalDetectionsWeek := detectionsWeek.length
    classDistribution := sortCountDesc (countClasses detections24h)
    hourlyDetections := (List.range 24).map (hourBucket dets now tzOffset) }

/-- One ingestion request against the shared state: either endpoint, with its
credential-check outcome and its parsed body. -/
inductive IngestOp where
  | single (authValid : Bool) (b : DetectionPayload)
  | batch (authValid : Bool) (device_id : String)
      (items : Option (List BatchItem))
deriving Repr

/-- The state after one ingestion request (the response is discarded). -/
def stepState (now : Int) (s : ServerState) (op : IngestOp) : ServerState :=
  match op with
  | .single authValid b => (singlePOST now authValid b s).2
  | .batch authValid device_id items =>
    (batchPOST now authValid device_id items s).2

/-- Run a sequence of ingestion requests, each with its own wall-clock time. -/
def runOps (s : ServerState) (ops : List (Int × IngestOp)) : ServerState :=
  ops.foldl (fun st p => stepState p.1 st p.2) s

/-- The empty server state (fresh process). -/
def initialState : ServerState :=
  { devices := [], detections := [], auditLog := [], broadcasts := [] }

/-- A single-detection payload is accepted when both required fields are
present (JS-truthy) and the class name passes the wild-cat filter. -/
def acceptedPayload (b : DetectionPayload) : Prop :=
  b.device_id ≠ "" ∧ b.class_name ≠ "" ∧ isWildCat b.class_name = true

instance (b : DetectionPayload) : Decidable (acceptedPayload b) := by
  unfold acceptedPayload; infer_instance

/-- The detection record a successful single POST at time `p.1` with payload
`p.2` adds when the posting device is unregistered (so the raw id is the
display name, as from a fresh state). -/
def acceptedSingleDetection (p : Int × DetectionPayload) : Detection :=
  buildSingleDetection p.1 p.2.device_id (singleEventId p.1 p.2) p.2

/-- The accepted detections of a batch, in processing order, with the running
accepted-count `k` threaded through for the `Date.now() + addedCount` id
fallback. -/
def specBatchDetectionsAux (now : Int) (deviceId deviceName : String)
    (k : Nat) : List BatchItem → List Detection
  | [] => []
  | it :: rest =>
    if isWildCat it.class_name then
      buildBatchDetection now deviceId deviceName k it ::
        specBatchDetectionsAux now deviceId deviceName (k + 1) rest
    else
      specBatchDetectionsAux now deviceId deviceName k rest

/-- The accepted detections of a batch, in processing order. -/
def specBatchDetections (now : Int) (deviceId deviceName : String)
    (items : List BatchItem) : List Detection :=
  specBatchDetectionsAux now deviceId deviceName 0 items

/-- The number of batch items passing the wild-cat filter. -/
def countAccepted (items : List BatchItem) : Nat :=
  (items.filter (fun it => isWildCat it.class_name)).length

/-- Specification-side description of hourly bucket `j` (`j = 0` oldest):
counted over the stored detections that pass the wild-cat filter and fall in
`[now-(i+1)h, now-i*h)` for `i = 23 - j` — with no 24-hour window restriction
beyond the bucket bounds themselves — and labeled by the clock hour at the
bucket's end boundary. -/
def specHourBucket (s : ServerState) (now tzOffset : Int) (j : Nat) :
    String × Nat :=
  let i : Int := 23 - (j : Int)
  (toString (getHours tzOffset (now - i * 3600000)) ++ ":00",
   (s.detections.filter (fun d =>
      isWildCat d.className && decide (now - (i + 1) * 3600000 ≤ d.timestamp)
        && decide (d.timestamp < now - i * 3600000))).length)

/-- Modelled from the claim under test: hourly bucket `j` counted over the
full stored detection set, with no species filter applied at the stats call
site. -/
def claimHourBucketFullSet (s : ServerState) (now tzOffset : Int) (j : Nat) :
    String × Nat :=
  let i : Int := 23 - (j : Int)
  (toString (getHours tzOffset (now - i * 3600000)) ++ ":00",
   (s.detections.filter (fun d =>
      decide (now - (i + 1) * 3600000 ≤ d.timestamp)
        && decide (d.timestamp < now - i * 3600000))).length)

/-- Lookup of a class name's count in a frequency list (0 when absent). -/
def lookupCount (l : List (String × Nat)) (c : String) : Nat :=
  match l.find? (fun p => p.1 == c) with
  | some p => p.2
  | none => 0

/-! Concrete fixtures used by witnesses and counterexamples. -/

/-- A minimal single-detection payload for device `cam-1`. -/
def basePayload : DetectionPayload :=
  { event_id := some "ev1", detection_id := some 7, device_id := "cam-1",
    camera_id := none, timestamp := 100, class_name := "Tiger",
    class_id := none, confidence := 92 / 100, bbox := none,
    image_base64 := none, location := none, metadata := none }

/-- The same payload with the disallowed class name `dog`. -/
def dogPayload : DetectionPayload :=
  { basePayload with class_name := "dog", confidence := 99 / 100 }

/-- A registered but currently offline device record. -/
def exDevice : Device :=
  { name := "Camera One", status := "offline", lastSeen := -500000,
    stats := { detectionCount := 5 } }

/-- A state with `cam-1` registered and everything else empty. -/
def exState1 : ServerState :=
  { devices := [("cam-1", exDevice)], detections := [], auditLog := [],
    broadcasts := [] }

/-- A batch item with the given class name and detection id. -/
def mkBatchItem (c : String) (i : Int) : BatchItem :=
  { detection_id := some i, timestamp := 100, class_name := c,
    confidence := 1 / 2, bbox := none, image_base64 := none }

/-- A stored detection with the given class name, id and event timestamp. -/
def mkStoredDetection (c : String) (i : Int) (t : Int) : Detection :=
  { id := i, eventId := none, deviceId := "cam-1", deviceName := "cam-1",
    cameraId := none, timestamp := t, className := c, confidence := 1 / 2,
    bbox := [], imageUrl := none, location := none, metadata := none }

/-- A state holding two stored wild-cat detections. -/
def exStateTwo : ServerState :=
  { devices := [], auditLog := [], broadcasts := [],
    detections := [mkStoredDetection "tiger" 1 0, mkStoredDetection "lion" 2 0] }

/-- A state whose store holds the 24h sequence tiger, lion, tiger, lion,
tiger (most recent first is irrelevant for counting). -/
def exStateDist : ServerState :=
  { devices := [], auditLog := [], broadcasts := [],
    detections :=
      [mkStoredDetection "tiger" 1 (-1800000),
       mkStoredDetection "lion" 2 (-1800000),
       mkStoredDetection "tiger" 3 (-1800000),
       mkStoredDetection "lion" 4 (-1800000),
       mkStoredDetection "tiger" 5 (-1800000)] }

/-- A state whose store holds one non-wild-cat detection 30 minutes old
(reachable only by substituting the store, but a legal input of the stats
function, which the claim quantifies over). -/
def exStateDog : ServerState :=
  { devices := [], auditLog := [], broadcasts := [],
    detections := [mkStoredDetection "dog" 9 (-1800000)] }

/-- An audit entry for the given device. -/
def mkAuditEntry (dev : String) (i : Int) : AuditEntry :=
  { eventId := "ev" ++ toString i, deviceId := dev, timestamp := 0,
    action := "detection_received",
    details := { className := "tiger", confidence := 1 / 2, hasImage := false,
                 cameraId := none, location := none, priority := none } }

/-- A state with two audit entries and one stored detection. -/
def exStateAudit : ServerState :=
  { devices := [], broadcasts := [],
    detections := [mkStoredDetection "tiger" 1 0],
    auditLog := [mkAuditEntry "cam-1" 1, mkAuditEntry "cam-1" 2] }

/-- 1001 distinct accepted (wild-cat) batch items, ids 1..1001. -/
def bigBatch : List BatchItem :=
  (List.range 1001).map (fun i => mkBatchItem "tiger" ((i : Int) + 1))

/-- The device record as rewritten by a successful single-detection POST:
counter incremented, `lastSeen` refreshed, status forced online. -/
def onlineUpdated (dev : Device) (now : Int) : Device :=
  { dev with
    status := "online"
    lastSeen := now
    stats := { detectionCount := dev.stats.detectionCount + 1 } }

/-- The audit entry a successful single-detection POST appends. -/
def singleAuditEntry (now : Int) (b : DetectionPayload) : AuditEntry :=
  { eventId := singleEventId now b, deviceId := b.device_id, timestamp := now,
    action := "detection_received",
    details := { className := b.class_name, confidence := b.confidence,
                 hasImage := jsTruthyStr b.image_base64,
                 cameraId := b.camera_id,
                 location := b.location.bind (fun loc => loc.name),
                 priority := b.metadata.bind (fun m => m.priority) } }

/-- The frequency list, in first-encounter order, of class names among the
stored detections whose event time lies in the trailing 24-hour window. -/
def windowCounts (s : ServerState) (now : Int) : List (String × Nat) :=
  countClasses
    (s.detections.filter (fun d => decide (now - 86400000 < d.timestamp)))

/-! ## General lemmas about the embedded operations -/

/-- Capacity truncation is exactly `take 1000`. -/
theorem capTruncate_eq_take (l : List α) : capTruncate l = l.take 1000 := by
  unfold capTruncate
  split
  · rfl
  · exact (List.take_of_length_le (by omega)).symm

/-- Truncating the tail of an append before an outer truncation is harmless. -/
theorem take_append_take (n : Nat) (X Y : List α) :
    (X ++ Y.take n).take n = (X ++ Y).take n := by
  rw [List.take_append_eq_append_take, List.take_append_eq_append_take,
    List.take_take, Nat.min_eq_left (Nat.sub_le n X.length)]

/-- `mapSet` followed by `mapGet` at the same key yields the new value. -/
theorem mapGet_mapSet_self (m : List (String × Device)) (k : String)
    (v : Device) : mapGet (mapSet m k v) k = some v := by
  induction m with
  | nil => simp [mapSet, mapGet]
  | cons p rest ih =>
    obtain ⟨k0, v0⟩ := p
    by_cases h : k0 == k
    · simp [mapSet, h, mapGet, List.find?, eq_of_beq h]
    · simp only [mapSet, h, if_false, Bool.false_eq_true]
      simpa [mapGet, List.find?, h] using ih

/-- Characterization of the accepted single-detection POST: the 200 response
carries the event and detection ids; the detection is prepended and the store
truncated; the audit entry is prepended and the log truncated; the device map
and broadcast trace change exactly when the device is registered. -/
theorem singlePOST_accepted (now : Int) (b : DetectionPayload)
    (s : ServerState) (hacc : acceptedPayload b) :
    (singlePOST now true b s).1
      = { status := 200, success := true, error := none,
          message := some "Detection recorded",
          event_id := some (singleEventId now b),
          detection_id := some (jsOrElseInt b.detection_id now) }
    ∧ (singlePOST now true b s).2.detections
      = (buildSingleDetection now (deviceDisplayName s b.device_id)
           (singleEventId now b) b :: s.detections).take 1000
    ∧ (singlePOST now true b s).2.auditLog
      = capTruncate (singleAuditEntry now b :: s.auditLog)
    ∧ (mapGet s.devices b.device_id = none →
        (singlePOST now true b s).2.devices = s.devices
        ∧ (singlePOST now true b s).2.broadcasts = s.broadcasts)
    ∧ (∀ dev, mapGet s.devices b.device_id = some dev →
        (singlePOST now true b s).2.devices
          = mapSet s.devices b.device_id (onlineUpdated dev now)
        ∧ (singlePOST now true b s).2.broadcasts
          = onlineUpdated dev now :: s.broadcasts) := by
  obtain ⟨h1, h2, h3⟩ := hacc
  have hb1 : (b.device_id == "") = false := by simp [h1]
  have hb2 : (b.class_name == "") = false := by simp [h2]
  refine ⟨?_, ?_, ?_, ?_, ?_⟩
  · simp [singlePOST, hb1, hb2, h3, buildSingleDetection]
  · simp [singlePOST, hb1, hb2, h3, capTruncate_eq_take]
  · simp [singlePOST, hb1, hb2, h3, singleAuditEntry, logDetectionEvent]
  · intro hnone
    constructor <;> simp [singlePOST, hb1, hb2, h3, hnone]
  · intro dev hdev
    constructor <;> simp [singlePOST, hb1, hb2, h3, hdev, onlineUpdated]

/-- Characterization of the batch fold: processing a batch prepends the
accepted detections (in reverse processing order) and tallies accepted and
rejected counts. -/
theorem batchStep_foldl (now : Int) (dId dName : String)
    (items : List BatchItem) :
    ∀ (L : List Detection) (k r : Nat),
    items.foldl (batchStep now dId dName) (L, k, r)
      = ((specBatchDetectionsAux now dId dName k items).reverse ++ L,
         k + countAccepted items,
         r + (items.filter (fun it => !isWildCat it.class_name)).length) := by
  induction items with
  | nil => intro L k r; simp [specBatchDetectionsAux, countAccepted]
  | cons it rest ih =>
    intro L k r
    cases hw : isWildCat it.class_name with
    | true =>
      rw [List.foldl_cons,
        show batchStep now dId dName (L, k, r) it
            = (buildBatchDetection now dId dName k it :: L, k + 1, r) from by
          simp [batchStep, hw],
        ih]
      simp only [specBatchDetectionsAux, hw, if_true, List.reverse_cons,
        countAccepted, List.filter_cons, Bool.not_true, List.length_cons]
      refine congrArg₂ Prod.mk ?_ (congrArg₂ Prod.mk ?_ rfl)
      · rw [List.append_assoc, List.singleton_append]
      · omega
    | false =>
      rw [List.foldl_cons,
        show batchStep now dId dName (L, k, r) it = (L, k, r + 1) from by
          simp [batchStep, hw],
        ih]
      simp only [specBatchDetectionsAux, hw, Bool.false_eq_true, if_false,
        countAccepted, List.filter_cons, Bool.not_false, if_true,
        List.length_cons]
      refine congrArg₂ Prod.mk rfl (congrArg₂ Prod.mk rfl ?_)
      omega

/-- Characterization of the successful batch POST: the response reports the
accepted count; the store gains exactly the accepted detections (most recent
first) and is truncated to 1000; the audit log and broadcast trace are
untouched; the registered device's counter grows by the accepted count with
`lastSeen` refreshed (and nothing else changed). -/
theorem batchPOST_success (now : Int) (s : ServerState) (did : String)
    (items : List BatchItem) (h : did ≠ "") :
    (batchPOST now true did (some items) s).1
      = { status := 200, success := true, error := none,
          message := some (toString (countAccepted items)
            ++ " detections recorded"),
          count := some (countAccepted items) }
    ∧ (batchPOST now true did (some items) s).2.detections
      = ((specBatchDetections now did (deviceDisplayName s did) items).reverse
          ++ s.detections).take 1000
    ∧ (batchPOST now true did (some items) s).2.auditLog = s.auditLog
    ∧ (batchPOST now true did (some items) s).2.broadcasts = s.broadcasts
    ∧ (mapGet s.devices did = none →
        (batchPOST now true did (some items) s).2.devices = s.devices)
    ∧ (∀ dev, mapGet s.devices did = some dev →
        (batchPOST now true did (some items) s).2.devices
          = mapSet s.devices did
              { dev with
                lastSeen := now
                stats := { detectionCount :=
                  dev.stats.detectionCount + countAccepted items } }) := by
  have hb : (did == "") = false := by simp [h]
  have hfold := batchStep_foldl now did (deviceDisplayName s did) items
    s.detections 0 0
  refine ⟨?_, ?_, ?_, ?_, ?_, ?_⟩
  · simp only [batchPOST, hb, Bool.not_true, Bool.false_eq_true, if_false,
      hfold, Nat.zero_add, specBatchDetections]
  · simp only [batchPOST, hb, Bool.not_true, Bool.false_eq_true, if_false,
      hfold, Nat.zero_add, specBatchDetections, capTruncate_eq_take]
  · simp only [batchPOST, hb, Bool.not_true, Bool.false_eq_true, if_false]
  · simp only [batchPOST, hb, Bool.not_true, Bool.false_eq_true, if_false]
  · intro hnone
    simp only [batchPOST, hb, Bool.not_true, Bool.false_eq_true, if_false,
      hnone]
  · intro dev hdev
    simp only [batchPOST, hb, Bool.not_true, Bool.false_eq_true, if_false,
      hdev, hfold, Nat.zero_add, specBatchDetections]

/-! ## C1 — species rejection on the single-detection POST -/

/-- C1 (counterexample): a well-formed, authorized POST of the disallowed
class `dog` for the registered device `cam-1` is answered with HTTP 400, yet
the audit log does NOT gain a rejection entry — it stays empty, contradicting
the claim that one audit entry with the rejection reason is recorded. -/
theorem claim1_counterexample :
    (singlePOST 0 true dogPayload exState1).1.status = 400 ∧
    (singlePOST 0 true dogPayload exState1).1.success = false ∧
    exState1.auditLog = [] ∧
    (singlePOST 0 true dogPayload exState1).2.auditLog = [] := by
  decide

/-- C1 (amended): for every well-formed single-detection POST (device_id and
class_name present, credential valid) whose class_name fails the species
allow-list, the service returns HTTP 400 with `success = false` and the
rejection reason, and leaves the state entirely unchanged: no Detection is
stored, nothing is broadcast, and — unlike the claim — NO audit entry is
recorded (the audit log only ever receives entries for accepted
detections). -/
theorem claim1_species_rejected_no_audit (now : Int) (s : ServerState)
    (b : DetectionPayload) (hdev : b.device_id ≠ "")
    (hcls : b.class_name ≠ "") (hwc : isWildCat b.class_name = false) :
    singlePOST now true b s =
      ({ status := 400, success := false,
         error := some "Only wild cat species are allowed",
         message := none, event_id := none, detection_id := none }, s) := by
  have h1 : (b.device_id == "") = false := by
    simp [hdev]
  have h2 : (b.class_name == "") = false := by
    simp [hcls]
  simp [singlePOST, h1, h2, hwc]

/-- C1 (witness): the amended theorem applies to the concrete `dog` POST. -/
theorem claim1_witness :
    (dogPayload.device_id ≠ "" ∧ dogPayload.class_name ≠ "" ∧
      isWildCat dogPayload.class_name = false) ∧
    singlePOST 0 true dogPayload exState1 =
      ({ status := 400, success := false,
         error := some "Only wild cat species are allowed",
         message := none, event_id := none, detection_id := none },
       exState1) :=
  ⟨by decide,
   claim1_species_rejected_no_audit 0 exState1 dogPayload (by decide)
     (by decide) (by decide)⟩

/-! ## C5 — GET /detections limit semantics -/

/-- C5 (counterexample): with two stored wild-cat detections, `limit = -1` is
≤ 0 yet the endpoint does not return the empty sequence — JavaScript
`slice(0, -1)` keeps all but the last element. -/
theorem claim5_counterexample :
    (-1 : Int) ≤ 0 ∧ (detectionsGET (-1) none exStateTwo).1 ≠ [] := by
  decide

/-- C5 (amended): for every stored collection and integer limit `n`,
`GET /detections` returns the first `min(n, count)` matching detections
(most-recent-first, i.e. a prefix of the matching list) when `n ≥ 0`; for
`n = 0` it returns the empty sequence, but for `n < 0` it returns all but the
`|n|` oldest matching detections (`max(count - |n|, 0)` items) rather than
the empty sequence; an unknown device id yields the empty sequence and count
0, not an error. -/
theorem claim5_get_limit_semantics (s : ServerState) (limit : Int)
    (deviceId : Option String) :
    (0 ≤ limit →
      (detectionsGET limit deviceId s).1
        = (matchingDetections s deviceId).take limit.toNat ∧
      (detectionsGET limit deviceId s).1.length
        = min limit.toNat (matchingDetections s deviceId).length)
    ∧ (limit = 0 → (detectionsGET limit deviceId s).1 = [])
    ∧ (limit < 0 →
      (detectionsGET limit deviceId s).1.length
        = (matchingDetections s deviceId).length - (-limit).toNat)
    ∧ (∀ did : String, did ≠ "" → (∀ d ∈ s.detections, d.deviceId ≠ did) →
      detectionsGET limit (some did) s = ([], 0)) := by
  refine ⟨?_, ?_, ?_, ?_⟩
  · intro h
    have hs : jsSliceTo (matchingDetections s deviceId) limit
        = (matchingDetections s deviceId).take limit.toNat := by
      unfold jsSliceTo
      rw [if_neg (by omega)]
    exact ⟨hs, by rw [detectionsGET, hs, List.length_take]⟩
  · intro h
    subst h
    simp [detectionsGET, jsSliceTo]
  · intro h
    show (jsSliceTo (matchingDetections s deviceId) limit).length = _
    unfold jsSliceTo
    rw [if_pos h, List.length_take,
      Nat.min_eq_left (Nat.sub_le (matchingDetections s deviceId).length _)]
  · intro did hne hmem
    have hbeq : (did == "") = false := by simp [hne]
    have hnil : matchingDetections s (some did) = [] := by
      simp only [matchingDetections, hbeq, Bool.false_eq_true, if_false,
        List.filter_filter]
      rw [List.filter_eq_nil_iff]
      intro d hd
      simp [hmem d hd]
    rw [detectionsGET, hnil]
    unfold jsSliceTo
    split <;> simp

/-- C5 (witness): the amended theorem at a concrete store, limit and an
unknown device id. -/
theorem claim5_witness :
    ((0 : Int) ≤ 5 ∧
      (detectionsGET 5 none exStateTwo).1
        = (matchingDetections exStateTwo none).take (5 : Int).toNat) ∧
    ("nope" ≠ "" ∧ (∀ d ∈ exStateTwo.detections, d.deviceId ≠ "nope") ∧
      detectionsGET 5 (some "nope") exStateTwo = ([], 0)) :=
  ⟨⟨by decide, ((claim5_get_limit_semantics exStateTwo 5 none).1 (by decide)).1⟩,
   ⟨by decide, by decide,
    (claim5_get_limit_semantics exStateTwo 5 (some "nope")).2.2.2 "nope"
      (by decide) (by decide)⟩⟩

/-! ## C9 — online-device threshold -/

/-- C9: a device is counted in `onlineDevices` exactly when
`now - lastSeen < 120000` ms; in particular `lastSeen = now - 60s` is counted
and `lastSeen = now - 130s` is not. -/
theorem claim9_online_threshold (s : ServerState) (now tzOffset : Int)
    (d : Device) (hd : d ∈ s.devices.map Prod.snd) :
    ((statsGET now tzOffset s).onlineDevices
      = ((s.devices.map Prod.snd).filter
          (fun x => decide (now - x.lastSeen < 120000))).length)
    ∧ (d ∈ (s.devices.map Prod.snd).filter
          (fun x => decide (now - x.lastSeen < 120000))
        ↔ now - d.lastSeen < 120000)
    ∧ (d.lastSeen = now - 60000 →
        d ∈ (s.devices.map Prod.snd).filter
          (fun x => decide (now - x.lastSeen < 120000)))
    ∧ (d.lastSeen = now - 130000 →
        d ∉ (s.devices.map Prod.snd).filter
          (fun x => decide (now - x.lastSeen < 120000))) := by
  refine ⟨rfl, ?_, ?_, ?_⟩
  · simp [List.mem_filter, hd]
  · intro h
    simp only [List.mem_filter, hd, true_and, decide_eq_true_eq, h]
    omega
  · intro h
    simp only [List.mem_filter, hd, true_and, decide_eq_true_eq, h]
    omega

/-- C9 (witness): the threshold theorem at a concrete one-device registry at
`now = 200000`, with the device last seen 60 seconds earlier. -/
theorem claim9_witness :
    ({ name := "n", status := "offline", lastSeen := 140000,
       stats := { detectionCount := 0 } } : Device) ∈
      (({ devices := [("cam-9",
            { name := "n", status := "offline", lastSeen := 140000,
              stats := { detectionCount := 0 } })],
          detections := [], auditLog := [],
          broadcasts := [] } : ServerState).devices.map Prod.snd) ∧
    (({ devices := [("cam-9",
          { name := "n", status := "offline", lastSeen := 140000,
            stats := { detectionCount := 0 } })],
        detections := [], auditLog := [],
        broadcasts := [] } : ServerState).devices.map Prod.snd).filter
        (fun x => decide ((200000 : Int) - x.lastSeen < 120000)) ≠ [] := by
  have h := claim9_online_threshold
    { devices := [("cam-9",
        { name := "n", status := "offline", lastSeen := 140000,
          stats := { detectionCount := 0 } })],
      detections := [], auditLog := [], broadcasts := [] }
    200000 0
    { name := "n", status := "offline", lastSeen := 140000,
      stats := { detectionCount := 0 } }
    (by decide)
  refine ⟨by decide, ?_⟩
  intro hnil
  have hmem := h.2.2.1 (by decide)
  rw [hnil] at hmem
  exact (List.not_mem_nil _) hmem

/-! ## C10 — the two read endpoints compute `count` differently -/

/-- C10: the audit GET reports `count` as the number of matching log entries
before truncation to `limit` (so the returned page can be shorter than
`count`), while `GET /detections` reports `count` as the length of the list
actually returned after truncation; a concrete state with two audit entries
and `limit = 1` exhibits the divergence. -/
theorem claim10_count_semantics (s : ServerState) (limit : Int)
    (deviceId : Option String) :
    ((auditGET deviceId limit s).2 = (auditMatching s deviceId).length
      ∧ (auditGET deviceId limit s).1
          = jsSliceTo (auditMatching s deviceId) limit)
    ∧ ((detectionsGET limit deviceId s).2
        = (detectionsGET limit deviceId s).1.length)
    ∧ (0 ≤ limit →
        (auditGET deviceId limit s).1.length
          = min limit.toNat (auditMatching s deviceId).length)
    ∧ ((auditGET none 1 exStateAudit).2 = 2
      ∧ (auditGET none 1 exStateAudit).1.length = 1
      ∧ (detectionsGET 1 none exStateAudit).2 = 1
      ∧ (detectionsGET 1 none exStateAudit).1.length = 1) := by
  refine ⟨⟨rfl, rfl⟩, rfl, ?_, by decide⟩
  intro h
  show (jsSliceTo (auditMatching s deviceId) limit).length = _
  unfold jsSliceTo
  rw [if_neg (by omega), List.length_take]

/-- C10 (witness): the pre-truncation count rule at the concrete two-entry
audit state with `limit = 1`. -/
theorem claim10_witness :
    (0 : Int) ≤ 1 ∧
    (auditGET none 1 exStateAudit).1.length
      = min (1 : Int).toNat (auditMatching exStateAudit none).length :=
  ⟨by decide, (claim10_count_semantics exStateAudit 1 none).2.2.1 (by decide)⟩

/-! ## C4 — device record update on accepted detections -/

/-- C4 (counterexample): `cam-1` is registered with status `offline`; an
authorized batch POST with one accepted wild-cat item is ingested
(`count = 1`), yet the device's status is NOT forced to `online` — it is
still `offline`, contradicting the claim for batch items. -/
theorem claim4_counterexample :
    (mapGet exState1.devices "cam-1").map (fun d => d.status)
      = some "offline" ∧
    (batchPOST 0 true "cam-1" (some [mkBatchItem "tiger" 1]) exState1).1.count
      = some 1 ∧
    ¬ ((mapGet (batchPOST 0 true "cam-1" (some [mkBatchItem "tiger" 1])
          exState1).2.devices "cam-1").map (fun d => d.status)
        = some "online") := by
  decide

/-- C4 (amended): on the single-detection path, an accepted detection for a
registered device forces `status = "online"`, sets `lastSeen = now`,
increments the counter, and broadcasts the updated record; on the batch path,
however, the ingestion only sets `lastSeen = now` and adds the accepted count
to the counter — the stored status field is left unchanged (it is not forced
to `online`), and nothing is broadcast. -/
theorem claim4_device_update :
    (∀ (now : Int) (s : ServerState) (b : DetectionPayload) (dev : Device),
      acceptedPayload b → mapGet s.devices b.device_id = some dev →
      mapGet (singlePOST now true b s).2.devices b.device_id
          = some { dev with
                   status := "online"
                   lastSeen := now
                   stats :=
                     { detectionCount := dev.stats.detectionCount + 1 } }
        ∧ (singlePOST now true b s).2.broadcasts
          = { dev with
              status := "online"
              lastSeen := now
              stats := { detectionCount := dev.stats.detectionCount + 1 } }
            :: s.broadcasts)
    ∧ (∀ (now : Int) (s : ServerState) (did : String)
        (items : List BatchItem) (dev : Device),
      did ≠ "" → mapGet s.devices did = some dev →
      mapGet (batchPOST now true did (some items) s).2.devices did
          = some { dev with
                   status := dev.status
                   lastSeen := now
                   stats := { detectionCount :=
                     dev.stats.detectionCount + countAccepted items } }
        ∧ (batchPOST now true did (some items) s).2.broadcasts
          = s.broadcasts) := by
  constructor
  · intro now s b dev hacc hdev
    obtain ⟨hd, hbc⟩ := (singlePOST_accepted now b s hacc).2.2.2.2 dev hdev
    rw [hd, hbc]
    exact ⟨by rw [mapGet_mapSet_self]; rfl, rfl⟩
  · intro now s did items dev hdid hdev
    have hchar := batchPOST_success now s did items hdid
    refine ⟨?_, hchar.2.2.2.1⟩
    rw [hchar.2.2.2.2.2 dev hdev, mapGet_mapSet_self]

/-- C4 (witness): both parts of the amended theorem at the concrete offline
device `cam-1` — the single path flips it online, the batch path leaves the
`offline` status in place. -/
theorem claim4_witness :
    (acceptedPayload basePayload ∧
      mapGet exState1.devices "cam-1" = some exDevice ∧
      mapGet (singlePOST 0 true basePayload exState1).2.devices "cam-1"
        = some { exDevice with
                 status := "online"
                 lastSeen := 0
                 stats :=
                   { detectionCount := exDevice.stats.detectionCount + 1 } }) ∧
    ("cam-1" ≠ "" ∧
      mapGet (batchPOST 0 true "cam-1" (some [mkBatchItem "tiger" 1])
          exState1).2.devices "cam-1"
        = some { exDevice with
                 status := exDevice.status
                 lastSeen := 0
                 stats := { detectionCount :=
                   exDevice.stats.detectionCount
                     + countAccepted [mkBatchItem "tiger" 1] } }) :=
  ⟨⟨by decide, by decide,
    (claim4_device_update.1 0 exState1 basePayload exDevice (by decide)
      (by decide)).1⟩,
   ⟨by decide,
    (claim4_device_update.2 0 exState1 "cam-1" [mkBatchItem "tiger" 1]
      exDevice (by decide) (by decide)).1⟩⟩

/-! ## C2 — detection-store capacity -/

/-- Truncation to 1000 never yields more than 1000 items. -/
theorem length_take_1000_le (l : List α) : (l.take 1000).length ≤ 1000 := by
  rw [List.length_take]
  omega

/-- One ingestion request preserves the 1000-item bound on the store. -/
theorem step_detections_le (now : Int) (s : ServerState) (op : IngestOp)
    (h : s.detections.length ≤ 1000) :
    (stepState now s op).detections.length ≤ 1000 := by
  cases op with
  | single auth b =>
    cases auth
    · simpa [stepState, singlePOST] using h
    · by_cases h1 : b.device_id = ""
      · simpa [stepState, singlePOST, h1] using h
      · by_cases h2 : b.class_name = ""
        · simpa [stepState, singlePOST, h2] using h
        · cases h3 : isWildCat b.class_name
          · have hb1 : (b.device_id == "") = false := by simp [h1]
            have hb2 : (b.class_name == "") = false := by simp [h2]
            simpa [stepState, singlePOST, hb1, hb2, h3] using h
          · have hchar := singlePOST_accepted now b s ⟨h1, h2, h3⟩
            show (singlePOST now true b s).2.detections.length ≤ 1000
            rw [hchar.2.1]
            exact length_take_1000_le _
  | batch auth did items =>
    cases auth
    · simpa [stepState, batchPOST] using h
    · cases items with
      | none => simpa [stepState, batchPOST] using h
      | some its =>
        by_cases hd : did = ""
        · simpa [stepState, batchPOST, hd] using h
        · have hchar := batchPOST_success now s did its hd
          show (batchPOST now true did (some its) s).2.detections.length ≤ 1000
          rw [hchar.2.1]
          exact length_take_1000_le _

/-- Any request sequence from a within-bounds state stays within bounds. -/
theorem runOps_detections_le (ops : List (Int × IngestOp)) :
    ∀ s : ServerState, s.detections.length ≤ 1000 →
    (runOps s ops).detections.length ≤ 1000 := by
  induction ops with
  | nil => intro s h; exact h
  | cons p rest ih =>
    intro s h
    show (List.foldl _ s (p :: rest)).detections.length ≤ 1000
    rw [List.foldl_cons]
    exact ih _ (step_detections_le p.1 s p.2 h)

/-- Closed form of a run of accepted single-detection POSTs from a
device-free state: the store is the reversed insertion sequence truncated to
the 1000 most recent. -/
theorem runOps_singles (ps : List (Int × DetectionPayload)) :
    ∀ s : ServerState, s.devices = [] → s.detections.length ≤ 1000 →
    (∀ p ∈ ps, acceptedPayload p.2) →
    (runOps s (ps.map (fun p => (p.1, IngestOp.single true p.2)))).detections
      = ((ps.map acceptedSingleDetection).reverse ++ s.detections).take 1000 := by
  induction ps with
  | nil =>
    intro s _ hlen _
    simpa [runOps] using (List.take_of_length_le hlen).symm
  | cons p rest ih =>
    intro s hdev hlen hacc
    have haccp : acceptedPayload p.2 := hacc p (List.mem_cons_self p rest)
    have hchar := singlePOST_accepted p.1 p.2 s haccp
    have hnone : mapGet s.devices p.2.device_id = none := by
      simp [mapGet, hdev]
    have hdn : deviceDisplayName s p.2.device_id = p.2.device_id := by
      simp [deviceDisplayName, hnone]
    have hdet : (singlePOST p.1 true p.2 s).2.detections
        = (acceptedSingleDetection p :: s.detections).take 1000 := by
      rw [hchar.2.1, hdn]
      rfl
    have hdev2 : (singlePOST p.1 true p.2 s).2.devices = [] := by
      rw [(hchar.2.2.2.1 hnone).1, hdev]
    have hstep : runOps s
        (((p :: rest).map (fun q => (q.1, IngestOp.single true q.2))))
        = runOps (singlePOST p.1 true p.2 s).2
            (rest.map (fun q => (q.1, IngestOp.single true q.2))) := by
      rw [List.map_cons]
      show List.foldl _ _ _ = _
      rw [List.foldl_cons]
      rfl
    rw [hstep,
      ih _ hdev2 (by rw [hdet]; exact length_take_1000_le _)
        (fun q hq => hacc q (List.mem_cons_of_mem p hq)),
      hdet, take_append_take, List.map_cons, List.reverse_cons,
      List.append_assoc, List.singleton_append]

/-- C2: every single ingestion request (single or batch) keeps the detection
store at ≤ 1000 items, hence every request sequence from a fresh state does;
a run of accepted single insertions from a fresh state leaves exactly the
reversed insertion sequence truncated to the 1000 most recent — so inserting
1000+k detections leaves exactly 1000, the most recent ones, with the oldest
evicted from the tail. -/
theorem claim2_store_capacity :
    (∀ (now : Int) (s : ServerState) (op : IngestOp),
        s.detections.length ≤ 1000 →
        (stepState now s op).detections.length ≤ 1000)
    ∧ (∀ ops : List (Int × IngestOp),
        (runOps initialState ops).detections.length ≤ 1000)
    ∧ (∀ ps : List (Int × DetectionPayload),
        (∀ p ∈ ps, acceptedPayload p.2) →
        (runOps initialState
            (ps.map (fun p => (p.1, IngestOp.single true p.2)))).detections
          = ((ps.map acceptedSingleDetection).reverse).take 1000)
    ∧ (∀ (ps : List (Int × DetectionPayload)) (k : Nat),
        (∀ p ∈ ps, acceptedPayload p.2) → ps.length = 1000 + k →
        (runOps initialState
            (ps.map (fun p =>
              (p.1, IngestOp.single true p.2)))).detections.length = 1000) := by
  have hsingles : ∀ ps : List (Int × DetectionPayload),
      (∀ p ∈ ps, acceptedPayload p.2) →
      (runOps initialState
          (ps.map (fun p => (p.1, IngestOp.single true p.2)))).detections
        = ((ps.map acceptedSingleDetection).reverse).take 1000 := by
    intro ps hacc
    rw [runOps_singles ps initialState rfl (by simp [initialState]) hacc]
    simp [initialState]
  refine ⟨step_detections_le, fun ops => runOps_detections_le ops _ (by simp [initialState]), hsingles, ?_⟩
  intro ps k hacc hlen
  rw [hsingles ps hacc, List.length_take, List.length_reverse,
    List.length_map, hlen]
  omega

/-- C2 (witness): the bound-preservation and the closed form at one concrete
accepted insertion from the fresh state. -/
theorem claim2_witness :
    ((∀ p ∈ [((0 : Int), basePayload)], acceptedPayload p.2) ∧
      (runOps initialState
          ([((0 : Int), basePayload)].map
            (fun p => (p.1, IngestOp.single true p.2)))).detections
        = (([((0 : Int), basePayload)].map
            acceptedSingleDetection).reverse).take 1000) ∧
    (initialState.detections.length ≤ 1000 ∧
      (stepState 0 initialState
        (IngestOp.single true basePayload)).detections.length ≤ 1000) :=
  ⟨⟨by decide, claim2_store_capacity.2.2.1 [(0, basePayload)] (by decide)⟩,
   ⟨by decide, claim2_store_capacity.1 0 initialState
      (IngestOp.single true basePayload) (by decide)⟩⟩

/-! ## C3 — batch partial failure and counts -/

/-- The accepted-detection list of a batch has exactly `countAccepted items`
entries, whatever the running counter. -/
theorem specBatchDetectionsAux_length (now : Int) (dId dName : String) :
    ∀ (items : List BatchItem) (k : Nat),
    (specBatchDetectionsAux now dId dName k items).length
      = countAccepted items := by
  intro items
  induction items with
  | nil => intro k; simp [specBatchDetectionsAux, countAccepted]
  | cons it rest ih =>
    intro k
    cases hw : isWildCat it.class_name
    · simp [specBatchDetectionsAux, hw, countAccepted, List.filter_cons, ih]
    · simp [specBatchDetectionsAux, hw, countAccepted, List.filter_cons]
      have := ih (k + 1)
      simpa [countAccepted] using this

/-- C3 (counterexample): a batch of 1001 accepted wild-cat items into the
fresh state reports `count = 1001`, but the first accepted item (the built
detection with id 1, head of the accepted list) is NOT stored — the store
truncates to 1000 and evicts it — so not all accepted items of the batch are
stored. -/
theorem claim3_counterexample :
    (batchPOST 0 true "cam-1" (some bigBatch) initialState).1.count
      = some 1001 ∧
    bigBatch.all (fun it => isWildCat it.class_name) = true ∧
    (specBatchDetections 0 "cam-1" "cam-1" bigBatch).head?.map
      (fun d => d.id) = some 1 ∧
    ((batchPOST 0 true "cam-1" (some bigBatch) initialState).2.detections.all
      (fun d => d.id ≠ 1)) = true ∧
    (batchPOST 0 true "cam-1"
        (some bigBatch) initialState).2.detections.length = 1000 := by
  set_option maxRecDepth 100000 in decide

/-- C3 (amended): a batch POST with `a` accepted and `r` rejected items for
one device reports `count = a`, succeeds regardless of the rejected items
(no item aborts the rest), increases the registered device's counter by
exactly `a`, and prepends the accepted detections to the store (truncated to
capacity 1000) — so all `a` accepted items are stored provided `a ≤ 1000`;
beyond capacity the earliest-processed accepted items are evicted. -/
theorem claim3_batch_per_item (now : Int) (s : ServerState) (did : String)
    (items : List BatchItem) (hdid : did ≠ "") :
    (batchPOST now true did (some items) s).1.count
      = some (countAccepted items)
    ∧ (batchPOST now true did (some items) s).1.success = true
    ∧ (batchPOST now true did (some items) s).1.status = 200
    ∧ (batchPOST now true did (some items) s).2.detections
      = ((specBatchDetections now did (deviceDisplayName s did) items).reverse
          ++ s.detections).take 1000
    ∧ (∀ dev, mapGet s.devices did = some dev →
        (mapGet (batchPOST now true did (some items) s).2.devices did).map
            (fun d => d.stats.detectionCount)
          = some (dev.stats.detectionCount + countAccepted items))
    ∧ (countAccepted items ≤ 1000 →
        ∀ d ∈ specBatchDetections now did (deviceDisplayName s did) items,
          d ∈ (batchPOST now true did (some items) s).2.detections) := by
  have hchar := batchPOST_success now s did items hdid
  refine ⟨by rw [hchar.1], by rw [hchar.1], by rw [hchar.1], hchar.2.1,
    ?_, ?_⟩
  · intro dev hdev
    rw [hchar.2.2.2.2.2 dev hdev, mapGet_mapSet_self]
    rfl
  · intro hle d hd
    rw [hchar.2.1, List.take_append_eq_append_take,
      List.take_of_length_le (by
        rw [List.length_reverse, specBatchDetections,
          specBatchDetectionsAux_length]
        exact hle)]
    exact List.mem_append_left _ (List.mem_reverse.mpr hd)

/-- C3 (witness): the amended theorem at a concrete 2-accepted/1-rejected
batch for the registered device `cam-1`. -/
theorem claim3_witness :
    ("cam-1" ≠ "") ∧
    (batchPOST 0 true "cam-1"
        (some [mkBatchItem "tiger" 1, mkBatchItem "dog" 2,
          mkBatchItem "lion" 3]) exState1).1.count
      = some (countAccepted [mkBatchItem "tiger" 1, mkBatchItem "dog" 2,
          mkBatchItem "lion" 3]) :=
  ⟨by decide,
   (claim3_batch_per_item 0 exState1 "cam-1"
     [mkBatchItem "tiger" 1, mkBatchItem "dog" 2, mkBatchItem "lion" 3]
     (by decide)).1⟩

/-! ## C7 — accepted detection round-trip -/

/-- A positive slice limit keeps the head of a nonempty list. -/
theorem jsSliceTo_head (l : List Detection) (x : Detection) (limit : Int)
    (hpos : 0 < limit) : (jsSliceTo (x :: l) limit).head? = some x := by
  unfold jsSliceTo
  rw [if_neg (by omega), show limit.toNat = (limit.toNat - 1) + 1 by omega,
    List.take_succ_cons]
  rfl

/-- C7: an authorized POST with an allow-listed class name (matched
case-insensitively — `"Tiger"` passes) succeeds with an `event_id` and
`detection_id`; a subsequent `GET /detections` filtered by that device id
returns the stored record first, with the original class-name casing and the
confidence unchanged; when the device was never registered the raw id is the
display name and the device registry is untouched, yet storage proceeds —
from an empty store the query returns exactly that one record. -/
theorem claim7_accepted_roundtrip (now : Int) (s : ServerState)
    (b : DetectionPayload) (hacc : acceptedPayload b) :
    (singlePOST now true b s).1.success = true
    ∧ (singlePOST now true b s).1.status = 200
    ∧ (singlePOST now true b s).1.event_id = some (singleEventId now b)
    ∧ (singlePOST now true b s).1.detection_id
      = some (jsOrElseInt b.detection_id now)
    ∧ (∀ limit : Int, 0 < limit →
        (detectionsGET limit (some b.device_id)
            (singlePOST now true b s).2).1.head?
          = some (buildSingleDetection now (deviceDisplayName s b.device_id)
              (singleEventId now b) b))
    ∧ (buildSingleDetection now (deviceDisplayName s b.device_id)
        (singleEventId now b) b).className = b.class_name
    ∧ (buildSingleDetection now (deviceDisplayName s b.device_id)
        (singleEventId now b) b).confidence = b.confidence
    ∧ (mapGet s.devices b.device_id = none →
        deviceDisplayName s b.device_id = b.device_id
        ∧ (singlePOST now true b s).2.devices = s.devices)
    ∧ (s.detections = [] →
        (detectionsGET 50 (some b.device_id) (singlePOST now true b s).2).1
          = [buildSingleDetection now (deviceDisplayName s b.device_id)
              (singleEventId now b) b]) := by
  have hchar := singlePOST_accepted now b s hacc
  have hbne : (b.device_id == "") = false := by simp [hacc.1]
  have hdets : (singlePOST now true b s).2.detections
      = buildSingleDetection now (deviceDisplayName s b.device_id)
          (singleEventId now b) b :: s.detections.take 999 := by
    rw [hchar.2.1, show (1000 : Nat) = 999 + 1 from rfl,
      List.take_succ_cons]
  have hsp : isWildCat (buildSingleDetection now
      (deviceDisplayName s b.device_id) (singleEventId now b) b).className
      = true := hacc.2.2
  have hdv : ((buildSingleDetection now (deviceDisplayName s b.device_id)
      (singleEventId now b) b).deviceId == b.device_id) = true := by
    simp [buildSingleDetection]
  have hmatch : matchingDetections (singlePOST now true b s).2
        (some b.device_id)
      = buildSingleDetection now (deviceDisplayName s b.device_id)
          (singleEventId now b) b
        :: ((s.detections.take 999).filter
              (fun d => isWildCat d.className)).filter
            (fun d => d.deviceId == b.device_id) := by
    simp only [matchingDetections, hdets, hbne, Bool.false_eq_true, if_false,
      List.filter_cons, hsp, hdv, if_true]
  refine ⟨by rw [hchar.1], by rw [hchar.1], by rw [hchar.1],
    by rw [hchar.1], ?_, rfl, rfl, ?_, ?_⟩
  · intro limit hpos
    show (jsSliceTo (matchingDetections _ _) limit).head? = _
    rw [hmatch]
    exact jsSliceTo_head _ _ limit hpos
  · intro hnone
    exact ⟨by simp [deviceDisplayName, hnone], (hchar.2.2.2.1 hnone).1⟩
  · intro hempty
    show jsSliceTo (matchingDetections _ _) 50 = _
    rw [hmatch, hempty]
    simp [jsSliceTo]

/-- C7 (witness): the round-trip at the concrete `Tiger` payload posted from
the fresh state, where `cam-1` was never registered. -/
theorem claim7_witness :
    acceptedPayload basePayload ∧
    (singlePOST 0 true basePayload initialState).1.success = true ∧
    (detectionsGET 50 (some "cam-1")
        (singlePOST 0 true basePayload initialState).2).1.head?
      = some (buildSingleDetection 0
          (deviceDisplayName initialState "cam-1") (singleEventId 0 basePayload)
          basePayload) :=
  ⟨by decide,
   (claim7_accepted_roundtrip 0 initialState basePayload (by decide)).1,
   (claim7_accepted_roundtrip 0 initialState basePayload (by decide)).2.2.2.2.1
     50 (by decide)⟩

/-! ## C6 — hourly histogram -/

/-- C6 (counterexample): with a single stored `dog` detection 30 minutes old,
the newest hourly bucket reports a count of 0, while counting over the full
stored detection set (as the claim asserts) would report 1 — the stats
handler re-applies the species filter before the hourly loop, contradicting
the claim that no species filter is applied at that call site. -/
theorem claim6_counterexample :
    (statsGET 0 0 exStateDog).hourlyDetections[23]? = some ("0:00", 0) ∧
    claimHourBucketFullSet exStateDog 0 0 23 = ("0:00", 1) ∧
    (statsGET 0 0 exStateDog).hourlyDetections[23]?
      ≠ some (claimHourBucketFullSet exStateDog 0 0 23) := by
  decide

/-- C6 (amended): the hourly histogram has exactly 24 buckets, oldest first;
bucket `j` (loop index `i = 23 - j`, so `i = 23` downto `0`) counts the
stored detections that pass the species filter (which the stats handler
applies once at the top of the call, before the hourly loop) with event time
in `[now-(i+1)h, now-i*h)` — with no further 24-hour-window restriction — and
is labeled by the clock hour at the bucket's end boundary. -/
theorem claim6_hourly_buckets (s : ServerState) (now tzOffset : Int) :
    (statsGET now tzOffset s).hourlyDetections.length = 24
    ∧ (statsGET now tzOffset s).hourlyDetections
      = (List.range 24).map (specHourBucket s now tzOffset) := by
  have hmap : (statsGET now tzOffset s).hourlyDetections
      = (List.range 24).map
          (hourBucket (s.detections.filter (fun d => isWildCat d.className))
            now tzOffset) := rfl
  constructor
  · rw [hmap, List.length_map, List.length_range]
  · rw [hmap]
    apply List.map_congr_left
    intro j hj
    simp only [hourBucket, specHourBucket]
    refine congrArg₂ Prod.mk rfl ?_
    rw [List.filter_filter]
    apply congrArg List.length
    apply List.filter_congr
    intro d hd
    cases isWildCat d.className <;>
      simp [Bool.and_comm, Bool.and_assoc, Bool.and_left_comm]

/-! ## C8 — class distribution: sortedness, stability, frequencies -/

/-- Inserting into the count-descending order is a permutation of consing. -/
theorem insertCountDesc_perm (p : String × Nat) (l : List (String × Nat)) :
    (insertCountDesc p l).Perm (p :: l) := by
  induction l with
  | nil => exact List.Perm.refl _
  | cons q qs ih =>
    unfold insertCountDesc
    by_cases h : q.2 ≤ p.2
    · rw [if_pos h]
    · rw [if_neg h]
      exact (ih.cons q).trans (List.Perm.swap p q qs)

/-- The stable sort is a permutation of its input. -/
theorem sortCountDesc_perm (l : List (String × Nat)) :
    (sortCountDesc l).Perm l := by
  induction l with
  | nil => exact List.Perm.refl _
  | cons a l ih =>
    exact (insertCountDesc_perm a (sortCountDesc l)).trans (ih.cons a)

/-- Insertion preserves the count-descending pairwise order. -/
theorem insertCountDesc_sorted (p : String × Nat) (l : List (String × Nat))
    (h : l.Pairwise (fun x y => y.2 ≤ x.2)) :
    (insertCountDesc p l).Pairwise (fun x y => y.2 ≤ x.2) := by
  induction l with
  | nil => simp [insertCountDesc]
  | cons q qs ih =>
    rw [List.pairwise_cons] at h
    obtain ⟨hq, hqs⟩ := h
    unfold insertCountDesc
    by_cases hle : q.2 ≤ p.2
    · rw [if_pos hle]
      refine List.pairwise_cons.mpr ⟨?_, List.pairwise_cons.mpr ⟨hq, hqs⟩⟩
      intro x hx
      rcases List.mem_cons.mp hx with rfl | hx2
      · exact hle
      · exact le_trans (hq x hx2) hle
    · rw [if_neg hle]
      refine List.pairwise_cons.mpr ⟨?_, ih hqs⟩
      intro x hx
      rcases List.mem_cons.mp ((insertCountDesc_perm p qs).mem_iff.mp hx)
        with rfl | hx3
      · omega
      · exact hq x hx3

/-- The stable sort output is count-descending. -/
theorem sortCountDesc_sorted (l : List (String × Nat)) :
    (sortCountDesc l).Pairwise (fun x y => y.2 ≤ x.2) := by
  induction l with
  | nil => simp [sortCountDesc]
  | cons a l ih => exact insertCountDesc_sorted a _ ih

/-- Filtering one count class through an insertion: the new entry lands after
every earlier entry of its own count class (it is only inserted once all
strictly larger counts have passed), so the filter gains `p` at the front
exactly when `p` has count `k`. -/
theorem filter_insertCountDesc (p : String × Nat) (l : List (String × Nat))
    (k : Nat) :
    (insertCountDesc p l).filter (fun q => q.2 == k)
      = if p.2 = k then p :: l.filter (fun q => q.2 == k)
        else l.filter (fun q => q.2 == k) := by
  induction l with
  | nil => by_cases hpk : p.2 = k <;> simp [insertCountDesc, hpk]
  | cons q qs ih =>
    unfold insertCountDesc
    by_cases hle : q.2 ≤ p.2
    · rw [if_pos hle]
      by_cases hpk : p.2 = k <;> simp [List.filter_cons, hpk]
    · rw [if_neg hle]
      by_cases hqk : q.2 = k
      · have hpk : p.2 ≠ k := by omega
        simp [List.filter_cons, hqk, hpk, ih]
      · by_cases hpk : p.2 = k <;> simp [List.filter_cons, hqk, hpk, ih]

/-- Stability of the sort: within one count class, the sorted output keeps
the input (first-encounter) order. -/
theorem sortCountDesc_stable (l : List (String × Nat)) (k : Nat) :
    (sortCountDesc l).filter (fun q => q.2 == k)
      = l.filter (fun q => q.2 == k) := by
  induction l with
  | nil => rfl
  | cons a l ih =>
    show (insertCountDesc a (sortCountDesc l)).filter _ = _
    rw [filter_insertCountDesc]
    by_cases hak : a.2 = k <;> simp [hak, ih, List.filter_cons]

/-- Unfolding `lookupCount` over a cons cell. -/
theorem lookupCount_cons (a : String × Nat) (l : List (String × Nat))
    (c : String) :
    lookupCount (a :: l) c = if a.1 == c then a.2 else lookupCount l c := by
  unfold lookupCount
  cases h : (a.1 == c) <;> simp [List.find?_cons, h, lookupCount]

/-- `bump` increments exactly the bumped key's count. -/
theorem bump_lookup (key : String) (l : List (String × Nat)) (c : String) :
    lookupCount (bump key l) c
      = if c = key then lookupCount l c + 1 else lookupCount l c := by
  induction l with
  | nil =>
    by_cases h : c = key
    · subst h
      simp [bump, lookupCount_cons, lookupCount]
    · have hb : (key == c) = false := by
        simp [Ne.symm h]
      simp [bump, lookupCount_cons, lookupCount, h, hb]
  | cons a l ih =>
    obtain ⟨a1, a2⟩ := a
    by_cases hk : a1 = key
    · subst hk
      rw [show bump a1 ((a1, a2) :: l) = (a1, a2 + 1) :: l from by
        simp [bump]]
      rw [lookupCount_cons, lookupCount_cons]
      by_cases hc : (a1 == c) = true
      · have : c = a1 := (eq_of_beq hc).symm
        simp [hc, this]
      · have hcne : c ≠ a1 := fun he => hc (by simp [he])
        simp [hc, hcne]
    · have hb : (a1 == key) = false := by simp [hk]
      rw [show bump key ((a1, a2) :: l) = (a1, a2) :: bump key l from by
        simp [bump, hb]]
      rw [lookupCount_cons, lookupCount_cons, ih]
      by_cases hc : (a1 == c) = true
      · have hcne : c ≠ key := by
          have : a1 = c := eq_of_beq hc
          subst this
          exact hk
      -- c = a1 ≠ key: both sides a2
        simp [hc, hcne]
      · simp [hc]

/-- Folding the frequency accumulator adds the occurrence count of each
class to its prior tally. -/
theorem countClasses_foldl_lookup (dets : List Detection) (c : String) :
    ∀ acc : List (String × Nat),
    lookupCount (dets.foldl (fun a d => bump d.className a) acc) c
      = lookupCount acc c
        + (dets.filter (fun d => d.className == c)).length := by
  induction dets with
  | nil => intro acc; simp
  | cons d rest ih =>
    intro acc
    rw [List.foldl_cons, ih, bump_lookup]
    by_cases h : c = d.className
    · have hb : (d.className == c) = true := by simp [h]
      simp only [if_pos h, List.filter_cons, hb, if_true, List.length_cons]
      omega
    · have hb : (d.className == c) = false := by simp [Ne.symm h]
      simp [List.filter_cons, hb, h]

/-- The frequency list reports exactly the occurrence counts. -/
theorem countClasses_lookup (dets : List Detection) (c : String) :
    lookupCount (countClasses dets) c
      = (dets.filter (fun d => d.className == c)).length := by
  have h := countClasses_foldl_lookup dets c []
  simpa [countClasses, lookupCount] using h

/-- The key list after a `bump`: unchanged if the key was present, else the
key is appended. -/
theorem bump_keys (key : String) (l : List (String × Nat)) :
    (bump key l).map Prod.fst
      = if key ∈ l.map Prod.fst then l.map Prod.fst
        else l.map Prod.fst ++ [key] := by
  induction l with
  | nil => simp [bump]
  | cons a l ih =>
    obtain ⟨a1, a2⟩ := a
    by_cases h : a1 = key
    · subst h
      simp [bump]
    · have hb : (a1 == key) = false := by simp [h]
      by_cases hk : key ∈ l.map Prod.fst <;>
        simp [bump, hb, ih, hk, h, Ne.symm h]

/-- `bump` preserves key distinctness. -/
theorem bump_keys_nodup (key : String) (l : List (String × Nat))
    (h : (l.map Prod.fst).Nodup) : ((bump key l).map Prod.fst).Nodup := by
  rw [bump_keys]
  by_cases hk : key ∈ l.map Prod.fst
  · rwa [if_pos hk]
  · rw [if_neg hk]
    exact h.append (List.nodup_singleton key) (by simpa using hk)

/-- Every frequency-accumulator fold keeps keys distinct. -/
theorem countClasses_foldl_nodup (dets : List Detection) :
    ∀ acc : List (String × Nat), (acc.map Prod.fst).Nodup →
    (((dets.foldl (fun a d => bump d.className a) acc)).map Prod.fst).Nodup := by
  induction dets with
  | nil => intro acc h; exact h
  | cons d rest ih =>
    intro acc h
    rw [List.foldl_cons]
    exact ih _ (bump_keys_nodup d.className acc h)

/-- The frequency list has distinct keys. -/
theorem countClasses_keys_nodup (dets : List Detection) :
    ((countClasses dets).map Prod.fst).Nodup :=
  countClasses_foldl_nodup dets [] (by simp)

/-- `bump` keeps all counts positive. -/
theorem bump_pos (key : String) (l : List (String × Nat))
    (h : ∀ p ∈ l, 0 < p.2) : ∀ p ∈ bump key l, 0 < p.2 := by
  induction l with
  | nil =>
    intro p hp
    simp only [bump, List.mem_singleton] at hp
    subst hp
    exact Nat.one_pos
  | cons a l ih =>
    obtain ⟨a1, a2⟩ := a
    intro p hp
    by_cases hb : (a1 == key) = true
    · rw [show bump key ((a1, a2) :: l) = (a1, a2 + 1) :: l from by
        simp [bump, hb]] at hp
      rcases List.mem_cons.mp hp with rfl | hp2
      · exact Nat.succ_pos a2
      · exact h p (List.mem_cons_of_mem _ hp2)
    · rw [show bump key ((a1, a2) :: l) = (a1, a2) :: bump key l from by
        simp only [bump]
        rw [if_neg (by simpa using hb)]] at hp
      rcases List.mem_cons.mp hp with rfl | hp2
      · exact h (a1, a2) (List.mem_cons_self _ _)
      · exact ih (fun q hq => h q (List.mem_cons_of_mem _ hq)) p hp2

/-- Every entry of the frequency list has a positive count. -/
theorem countClasses_pos (dets : List Detection) :
    ∀ p ∈ countClasses dets, 0 < p.2 := by
  suffices hgen : ∀ (l : List Detection) (acc : List (String × Nat)),
      (∀ p ∈ acc, 0 < p.2) →
      ∀ p ∈ l.foldl (fun a d => bump d.className a) acc, 0 < p.2 from
    hgen dets [] (by simp)
  intro l
  induction l with
  | nil => intro acc h; exact h
  | cons d rest ih =>
    intro acc h
    rw [List.foldl_cons]
    exact ih _ (bump_pos d.className acc h)

/-- In a positive-count list with distinct keys, membership of `(c, n)` is
equivalent to `n` being the (positive) looked-up count of `c`. -/
theorem mem_iff_lookupCount (l : List (String × Nat))
    (hnd : (l.map Prod.fst).Nodup) (hpos : ∀ p ∈ l, 0 < p.2) (c : String)
    (n : Nat) : (c, n) ∈ l ↔ 0 < n ∧ lookupCount l c = n := by
  constructor
  · intro hmem
    refine ⟨hpos _ hmem, ?_⟩
    clear hpos
    induction l with
    | nil => cases hmem
    | cons a l ih =>
      rw [lookupCount_cons]
      rcases List.mem_cons.mp hmem with rfl | hm2
      · simp
      · have ha : a.1 ≠ c := by
          intro he
          have : c ∈ l.map Prod.fst :=
            List.mem_map.mpr ⟨(c, n), hm2, rfl⟩
          rw [List.map_cons, List.nodup_cons] at hnd
          exact hnd.1 (he ▸ this)
        rw [if_neg (by simpa using ha)]
        exact ih ((List.map_cons Prod.fst a l ▸ hnd).of_cons) hm2
  · intro hx
    obtain ⟨hn, hlk⟩ := hx
    clear hnd hpos
    induction l with
    | nil =>
      exfalso
      have h0 : (0 : Nat) = n := by simpa [lookupCount] using hlk
      omega
    | cons a l ih =>
      rw [lookupCount_cons] at hlk
      by_cases hb : (a.1 == c) = true
      · rw [if_pos hb] at hlk
        have : a = (c, n) := Prod.ext (eq_of_beq hb) hlk
        rw [this]
        exact List.mem_cons_self _ _
      · rw [if_neg (by simpa using hb)] at hlk
        exact List.mem_cons_of_mem _ (ih hlk)

/-- C8: under the ingestion invariant that every stored detection passes the
species filter, the class distribution is the stable descending sort of the
first-encounter frequency list over the 24-hour window: it is
count-descending, a permutation of the frequency list whose entries are
exactly the classes occurring in the window with their occurrence counts,
and ties keep first-encounter order (the filter at any fixed count is
preserved); for the 24h detections tiger, lion, tiger, lion, tiger it equals
`{tiger: 3, lion: 2}` in that order. -/
theorem claim8_class_distribution (s : ServerState) (now tzOffset : Int)
    (h : ∀ d ∈ s.detections, isWildCat d.className = true) :
    ((statsGET now tzOffset s).classDistribution
      = sortCountDesc (windowCounts s now))
    ∧ ((statsGET now tzOffset s).classDistribution).Pairwise
        (fun x y => y.2 ≤ x.2)
    ∧ ((statsGET now tzOffset s).classDistribution).Perm (windowCounts s now)
    ∧ (∀ k : Nat,
        ((statsGET now tzOffset s).classDistribution).filter
            (fun p => p.2 == k)
          = (windowCounts s now).filter (fun p => p.2 == k))
    ∧ (∀ (c : String) (n : Nat),
        (c, n) ∈ (statsGET now tzOffset s).classDistribution
          ↔ 0 < n ∧
            ((s.detections.filter
                (fun d => decide (now - 86400000 < d.timestamp))).filter
              (fun d => d.className == c)).length = n)
    ∧ (statsGET 0 0 exStateDist).classDistribution
      = [("tiger", 3), ("lion", 2)] := by
  have hfil : s.detections.filter (fun d => isWildCat d.className)
      = s.detections := List.filter_eq_self.mpr (fun a ha => h a ha)
  have h1 : (statsGET now tzOffset s).classDistribution
      = sortCountDesc (windowCounts s now) := by
    show sortCountDesc (countClasses
        ((s.detections.filter (fun d => isWildCat d.className)).filter
          (fun d => decide (now - 86400000 < d.timestamp)))) = _
    rw [hfil, windowCounts]
  refine ⟨h1, ?_, ?_, ?_, ?_, by decide⟩
  · rw [h1]
    exact sortCountDesc_sorted _
  · rw [h1]
    exact sortCountDesc_perm _
  · intro k
    rw [h1]
    exact sortCountDesc_stable _ k
  · intro c n
    rw [h1, (sortCountDesc_perm (windowCounts s now)).mem_iff]
    simp only [windowCounts]
    rw [mem_iff_lookupCount _ (countClasses_keys_nodup _)
      (countClasses_pos _) c n, countClasses_lookup]

/-- C8 (witness): the invariant holds at the concrete tiger/lion state, and
the theorem applies there. -/
theorem claim8_witness :
    (∀ d ∈ exStateDist.detections, isWildCat d.className = true) ∧
    (statsGET 0 0 exStateDist).classDistribution
      = sortCountDesc (windowCounts exStateDist 0) :=
  ⟨by decide, (claim8_class_distribution exStateDist 0 0 (by decide)).1⟩

end OpticShield
